import Mathlib

/-!
# Verification of the VINClarify payment backend

Shallow embedding of the payment backend. The repository contains two
revisions of `server.js` (revision A, lines 1-291, and revision B,
lines 292-535) and an older unnamed variant (`part_000`). All three are
embedded here: JS numbers that the routes handle are modelled as exact
rationals together with the non-finite cases, outbound HTTP calls are
modelled by an oracle argument giving each call's outcome, and each
route handler is a total function from its request and the oracle
outcomes to the outward response paired with the list of outbound calls
it performed.
-/

namespace Vin

/-- Result of JavaScript `Number(x)` on the raw request field: a finite
value (exact rational), `NaN`, or an infinity. -/
inductive JsNum where
  | finite (q : ℚ)
  | nan
  | posInf
  | negInf
deriving DecidableEq, Repr

/-- JavaScript `Math.round`: rounds half toward positive infinity,
`⌊q + 1/2⌋`. -/
def jsRound (q : ℚ) : ℤ := (q + 1/2).floor

/-- `normalizeAmount` of revision A (server.js lines 71-77):
`Number(amount)`, reject non-finite or `<= 0`, else
`Math.round(n * 100) / 100` — a **major-unit** value. -/
def normalizeAmountA : JsNum → Option ℚ
  | .finite q => if q ≤ 0 then none else some ((jsRound (q * 100) : ℚ) / 100)
  | _ => none

/-- `normalizeAmount` of revision B (server.js lines 380-385):
`Number(amount)`, reject non-finite or `<= 0`, else
`Math.round(n * 100)` — an integer **minor-unit** (cents) value. -/
def normalizeAmountB : JsNum → Option ℤ
  | .finite q => if q ≤ 0 then none else some (jsRound (q * 100))
  | _ => none

/-- JavaScript `String.prototype.includes` (substring test), used by the
revision-B error mapping. -/
def listIncludes (pat : List Char) : List Char → Bool
  | [] => pat.isEmpty
  | c :: rest => pat.isPrefixOf (c :: rest) || listIncludes pat rest

/-- `s.includes(pat)` on strings. -/
def jsIncludes (s pat : String) : Bool := listIncludes pat.toList s.toList

/-- JavaScript whitespace characters recognised by `String.prototype.trim`
(ASCII subset plus NBSP and BOM; the id path parameter never carries the
exotic Unicode spaces). -/
def isJsWhitespace (c : Char) : Bool :=
  c = ' ' || c = '\t' || c = '\n' || c = '\r' ||
  c = '\x0b' || c = '\x0c' || c = ' ' || c = '﻿'

/-- JavaScript `String.prototype.trim`: drop leading and trailing
whitespace. -/
def jsTrim (s : String) : String :=
  ⟨((s.data.dropWhile isJsWhitespace).reverse.dropWhile isJsWhitespace).reverse⟩

/-- Process environment credentials. `process.env.X` is falsy exactly when
the variable is unset or empty; both are modelled by the empty string. -/
structure Env where
  clientId : String
  apiKey : String
deriving DecidableEq, Repr

/-- `assertEnv` (identical in both revisions of server.js): throws iff a
credential is falsy. -/
def assertEnvFails (env : Env) : Bool :=
  env.clientId = "" || env.apiKey = ""

/-- The message `assertEnv` throws with. -/
def assertEnvMsg (env : Env) : String :=
  "Missing environment variables: " ++
    String.intercalate ", "
      ((if env.clientId = "" then ["AIRWALLEX_CLIENT_ID"] else []) ++
       (if env.apiKey = "" then ["AIRWALLEX_API_KEY"] else []))

/-- What a route handler's `catch` can observe of a thrown JS error:
`err.message`, `err.response?.status` and `err.response?.data` (the last
rendered as a string). -/
structure JsError where
  message : String
  status : Option Nat
  body : Option String
deriving DecidableEq, Repr

/-- Outcome of one outbound axios call, supplied by the oracle:
a 2xx response with a parsed body, an HTTP error response (status and
body), a timeout (`ECONNABORTED`), or a network error without response. -/
inductive CallResult (α : Type) where
  | ok (body : α)
  | httpError (status : Nat) (body : String)
  | timeout
  | netError (msg : String)
deriving DecidableEq, Repr

/-- Body of the login response: its `token` field (`none` = absent;
`some ""` = present but empty, falsy under `!data?.token`). -/
def LoginBody := Option String
deriving instance DecidableEq, Repr for LoginBody

/-- Body of a payment-intent response from the processor. `extra` holds
provider-internal fields beyond the ones the backend projects. -/
structure IntentBody where
  id : String
  client_secret : String
  status : String
  amount : ℚ
  currency : String
  customer_id : String
  merchant_order_id : String
  extra : List (String × String)
deriving DecidableEq, Repr

/-- Payload the create-payment-intent handlers send to
`/api/v1/pa/payment_intents/create` (both revisions build the same
shape; the amount fields differ by revision). -/
structure IntentPayload where
  request_id : String
  amount : ℚ
  currency : String
  merchant_order_id : String
  product_name : String
  product_quantity : ℕ
  product_unit_price : ℚ
deriving DecidableEq, Repr

/-- An outbound call actually issued, with what was sent. -/
inductive Call where
  | login
  | createIntent (payload : IntentPayload)
  | confirm (intentId : String) (methodId : String)
  | statusGet (id : String)
  | login0
  | createIntent0 (amount : JsNum) (currency : String) (bearer : Option String)
deriving DecidableEq, Repr

/-- The generic error `getAirwallexToken` of revision A rethrows
(server.js line 97): every failure inside its `try` — HTTP error,
timeout, or its own missing-token throw — is replaced by
`new Error("Payment service unavailable")`, whose `response` is
`undefined`. -/
def tokenWrapErrA : JsError := ⟨"Payment service unavailable", none, none⟩

/-- `getAirwallexToken` of revision A (server.js lines 84-99). Returns
the token or the error the caller's `catch` sees, paired with the
outbound calls made (`assertEnv` throws before any call). -/
def getTokenA (env : Env) (login : CallResult LoginBody) :
    Except JsError String × List Call :=
  if assertEnvFails env then
    (.error ⟨assertEnvMsg env, none, none⟩, [])
  else
    match login with
    | .ok (some t) => if t = "" then (.error tokenWrapErrA, [.login]) else (.ok t, [.login])
    | .ok none => (.error tokenWrapErrA, [.login])
    | _ => (.error tokenWrapErrA, [.login])

/-- `getAirwallexToken` of revision B (server.js lines 392-419).
Failures inside the `try` are mapped by the `catch`:
`err.response?.status === 401` → "Invalid Airwallex credentials";
`err.response?.status >= 500` → "Payment service temporarily unavailable";
anything else — including a timeout (whose interceptor-made error has no
`response`) and the handler's own missing-token throw — →
"Failed to authenticate with payment provider". -/
def getTokenB (env : Env) (login : CallResult LoginBody) :
    Except JsError String × List Call :=
  if assertEnvFails env then
    (.error ⟨assertEnvMsg env, none, none⟩, [])
  else
    match login with
    | .ok (some t) =>
        if t = "" then
          (.error ⟨"Failed to authenticate with payment provider", none, none⟩, [.login])
        else (.ok t, [.login])
    | .ok none =>
        (.error ⟨"Failed to authenticate with payment provider", none, none⟩, [.login])
    | .httpError s _ =>
        if s = 401 then
          (.error ⟨"Invalid Airwallex credentials", none, none⟩, [.login])
        else if 500 ≤ s then
          (.error ⟨"Payment service temporarily unavailable", none, none⟩, [.login])
        else
          (.error ⟨"Failed to authenticate with payment provider", none, none⟩, [.login])
    | .timeout =>
        (.error ⟨"Failed to authenticate with payment provider", none, none⟩, [.login])
    | .netError _ =>
        (.error ⟨"Failed to authenticate with payment provider", none, none⟩, [.login])

/-- Message of an axios error for an HTTP error response. -/
def httpErrMsg (s : Nat) : String := "Request failed with status code " ++ toString s

/-- Inbound body of `/create-payment-intent` after destructuring:
`amountTruthy` is the JS truthiness of the raw `amount` field,
`amountNum` is `Number(amount)`, `currency` is the field after its
`"USD"` default, `orderId` is `String(orderId)` (falsy iff empty). -/
structure IntentReq where
  amountTruthy : Bool
  amountNum : JsNum
  currency : String
  orderId : String
deriving DecidableEq, Repr

/-- Outward response of `/create-payment-intent`:
a 400 validation rejection, a success projection
`{success:true, id, client_secret, status, amount, currency}`, or the
`catch` branch's `{success:false, error, details?}` with its HTTP status. -/
inductive CreateOut where
  | badRequest (error : String)
  | ok (id : String) (client_secret : String) (status : String)
      (amount : ℚ) (currency : String)
  | failed (httpStatus : Nat) (error : String) (details : Option String)
deriving DecidableEq, Repr

/-- Revision A's `catch` mapping (server.js lines 167-186):
`code = err.response?.status || 500`; 401 → authentication message,
400 → invalid request, else generic; always HTTP 500 outward; `details`
(non-production only) is `body || err.message`. -/
def errRespA (prod : Bool) (e : JsError) : CreateOut :=
  let code := e.status.getD 500
  .failed 500
    (if code = 401 then "Authentication failed with payment provider"
     else if code = 400 then "Invalid payment request"
     else "Failed to create payment")
    (if prod then none else some (e.body.getD e.message))

/-- Revision B's `catch` mapping (server.js lines 497-516): matches on
substrings of `err.message`; credentials/Unauthorized → 500
"Payment configuration error"; "temporarily unavailable" → 503; else
500 generic; `details` (non-production only) is `err.message`. -/
def errRespB (prod : Bool) (e : JsError) : CreateOut :=
  if jsIncludes e.message "credentials" || jsIncludes e.message "Unauthorized" then
    .failed 500 "Payment configuration error"
      (if prod then none else some e.message)
  else if jsIncludes e.message "temporarily unavailable" then
    .failed 503 "Payment service temporarily unavailable"
      (if prod then none else some e.message)
  else
    .failed 500 "Failed to create payment intent"
      (if prod then none else some e.message)

/-- `POST /create-payment-intent` of revision A (server.js lines
124-187). `login` and `intent` are the oracle outcomes of the two
possible outbound calls; the returned list records the calls actually
made, with the payload sent. Revision A has no timeout interceptor, so
a timeout surfaces as the raw axios `ECONNABORTED` error. -/
def createIntentA (prod : Bool) (env : Env) (reqId : String) (req : IntentReq)
    (login : CallResult LoginBody) (intent : CallResult IntentBody) :
    CreateOut × List Call :=
  match normalizeAmountA req.amountNum with
  | none => (.badRequest "Valid amount (> 0) and orderId are required", [])
  | some a =>
    if a = 0 ∨ req.orderId = "" then
      (.badRequest "Valid amount (> 0) and orderId are required", [])
    else
      match getTokenA env login with
      | (.error e, cs) => (errRespA prod e, cs)
      | (.ok _, cs) =>
        let payload : IntentPayload :=
          ⟨reqId, a, req.currency, req.orderId, "Vehicle History Report", 1, a⟩
        let cs := cs ++ [.createIntent payload]
        match intent with
        | .ok b => (.ok b.id b.client_secret b.status b.amount b.currency, cs)
        | .httpError s body => (errRespA prod ⟨httpErrMsg s, some s, some body⟩, cs)
        | .timeout => (errRespA prod ⟨"timeout of 15000ms exceeded", none, none⟩, cs)
        | .netError m => (errRespA prod ⟨m, none, none⟩, cs)

/-- `POST /create-payment-intent` of revision B (server.js lines
444-517). Truthiness of the raw `amount` is checked first, then
`normalizeAmount`; the timeout interceptor (lines 359-368) replaces a
timeout by `Error("Request timeout with payment provider")` with no
`response`. -/
def createIntentB (prod : Bool) (env : Env) (reqId : String) (req : IntentReq)
    (login : CallResult LoginBody) (intent : CallResult IntentBody) :
    CreateOut × List Call :=
  if !req.amountTruthy || req.orderId = "" then
    (.badRequest "Amount and orderId are required", [])
  else
    match normalizeAmountB req.amountNum with
    | none => (.badRequest "Valid amount (> 0) is required", [])
    | some z =>
      if z ≤ 0 then (.badRequest "Valid amount (> 0) is required", [])
      else
        match getTokenB env login with
        | (.error e, cs) => (errRespB prod e, cs)
        | (.ok _, cs) =>
          let payload : IntentPayload :=
            ⟨reqId, (z : ℚ), req.currency, req.orderId, "Vehicle History Report", 1, (z : ℚ)⟩
          let cs := cs ++ [.createIntent payload]
          match intent with
          | .ok b => (.ok b.id b.client_secret b.status b.amount b.currency, cs)
          | .httpError s body => (errRespB prod ⟨httpErrMsg s, some s, some body⟩, cs)
          | .timeout => (errRespB prod ⟨"Request timeout with payment provider", none, none⟩, cs)
          | .netError m => (errRespB prod ⟨m, none, none⟩, cs)

/-- Outward response of `/confirm-payment` (revision A, lines 190-230).
On success the handler returns `{success:true, status, paymentIntent}`
with the processor's full body as `paymentIntent`. -/
inductive ConfirmOut where
  | badRequest (error : String)
  | ok (status : String) (paymentIntent : IntentBody)
  | failed (httpStatus : Nat) (error : String) (details : Option String)
deriving DecidableEq, Repr

/-- Revision A's confirm `catch` mapping (lines 210-229):
404 → "Payment intent not found", 402 → "Payment failed - please check
your payment details", else "Failed to confirm payment"; HTTP 500
outward; `details` (non-production) is `body || err.message`. -/
def confirmErrA (prod : Bool) (e : JsError) : ConfirmOut :=
  let code := e.status.getD 500
  .failed 500
    (if code = 404 then "Payment intent not found"
     else if code = 402 then "Payment failed - please check your payment details"
     else "Failed to confirm payment")
    (if prod then none else some (e.body.getD e.message))

/-- `POST /confirm-payment` of revision A (server.js lines 190-230). -/
def confirmA (prod : Bool) (env : Env) (intentId methodId : String)
    (login : CallResult LoginBody) (confirm : CallResult IntentBody) :
    ConfirmOut × List Call :=
  if intentId = "" ∨ methodId = "" then
    (.badRequest "paymentIntentId and paymentMethodId are required", [])
  else
    match getTokenA env login with
    | (.error e, cs) => (confirmErrA prod e, cs)
    | (.ok _, cs) =>
      let cs := cs ++ [.confirm intentId methodId]
      match confirm with
      | .ok b => (.ok b.status b, cs)
      | .httpError s body => (confirmErrA prod ⟨httpErrMsg s, some s, some body⟩, cs)
      | .timeout => (confirmErrA prod ⟨"timeout of 15000ms exceeded", none, none⟩, cs)
      | .netError m => (confirmErrA prod ⟨m, none, none⟩, cs)

/-- Outward response of `/payment-status/:id` (revision A, lines
233-261). The `catch` sends the constant
`{success:false, error:"Failed to get payment status"}` with HTTP 500
and never attaches details, in any mode. -/
inductive StatusOut where
  | badRequest (error : String)
  | ok (status : String) (amount : ℚ)
      (currency customer_id merchant_order_id : String)
  | failed (error : String)
deriving DecidableEq, Repr

/-- `GET /payment-status/:id` of revision A (server.js lines 233-261):
`id = req.params.id?.trim()`, empty → 400 before any outbound call. -/
def statusA (env : Env) (rawId : String)
    (login : CallResult LoginBody) (statusQ : CallResult IntentBody) :
    StatusOut × List Call :=
  let id := jsTrim rawId
  if id = "" then (.badRequest "Payment ID required", [])
  else
    match getTokenA env login with
    | (.error _, cs) => (.failed "Failed to get payment status", cs)
    | (.ok _, cs) =>
      let cs := cs ++ [.statusGet id]
      match statusQ with
      | .ok b => (.ok b.status b.amount b.currency b.customer_id b.merchant_order_id, cs)
      | _ => (.failed "Failed to get payment status", cs)

/-- Outward response of the unnamed variant's `POST /create-payment`
(`src/unnamed/part_000`): on success it sends the processor's full
response body (`res.json(paymentIntent.data)`); any error collapses to
HTTP 500 `{error:"Payment failed"}`. -/
inductive Out0 where
  | okRaw (body : IntentBody)
  | failed (error : String)
deriving DecidableEq, Repr

/-- `POST /create-payment` of `src/unnamed/part_000` (lines 24-43).
There is no validation of `amount`, no `assertEnv`, and
`getAccessToken` has no error handling of its own: the raw `amount`
goes straight into the outbound intent payload. `login0`'s body is the
`access_token` field (`none` = absent, then the bearer sent is
`undefined`). -/
def createPayment0 (amount : JsNum) (currency : String)
    (login0 : CallResult (Option String)) (intent0 : CallResult IntentBody) :
    Out0 × List Call :=
  match login0 with
  | .ok tok =>
    match intent0 with
    | .ok b => (.okRaw b, [.login0, .createIntent0 amount currency tok])
    | _ => (.failed "Payment failed", [.login0, .createIntent0 amount currency tok])
  | _ => (.failed "Payment failed", [.login0])

/-- The amounts claim C2 quantifies over: `Number(amount)` is
non-numeric (`NaN`), non-finite, or `≤ 0`. -/
def invalidAmount : JsNum → Prop
  | .finite q => q ≤ 0
  | _ => True

instance : DecidablePred invalidAmount := fun n => by
  unfold invalidAmount; cases n <;> infer_instance

/-- Did an outbound call return 2xx? -/
def CallResult.succeeded : CallResult α → Bool
  | .ok _ => true
  | _ => false

/-- Did `getAirwallexToken` return a token (rather than throw)? -/
def tokenOk : Except JsError String → Bool
  | .ok _ => true
  | .error _ => false

/-- Is the outward create-payment-intent response the success shape? -/
def CreateOut.isOk : CreateOut → Bool
  | .ok .. => true
  | _ => false

/-- Is the outward confirm-payment response the success shape? -/
def ConfirmOut.isOk : ConfirmOut → Bool
  | .ok .. => true
  | _ => false

/-- Is the outward payment-status response the success shape? -/
def StatusOut.isOk : StatusOut → Bool
  | .ok .. => true
  | _ => false

/-- A processor intent response used as a concrete scenario: the spec's
worked example plus one provider-internal field. -/
def sampleBody : IntentBody :=
  ⟨"int_1", "sec_1", "requires_payment_method", 2999, "USD", "cus_1", "ORD-1",
    [("provider_internal", "x")]⟩

/-- The spec's worked inbound request: `{amount: 29.99, currency:"USD",
orderId:"ORD-1"}`. -/
def sampleReq : IntentReq := ⟨true, .finite (2999/100), "USD", "ORD-1"⟩

/-- The payload revision B sends for `sampleReq`: 2999 cents in both
amount fields. -/
def samplePayloadB : IntentPayload :=
  ⟨"r1", ((2999 : ℤ) : ℚ), "USD", "ORD-1", "Vehicle History Report", 1,
    ((2999 : ℤ) : ℚ)⟩

end Vin

example : Vin.jsRound (3/2 * 100) = 150 := by norm_num [Vin.jsRound, Rat.floor]
example : Vin.jsRound (2999/100 * 100) = 2999 := by norm_num [Vin.jsRound, Rat.floor]
example : Vin.normalizeAmountB (.finite (2999/100)) = some 2999 := by
  norm_num [Vin.normalizeAmountB, Vin.jsRound, Rat.floor]
example : Vin.jsIncludes "Invalid Airwallex credentials" "credentials" = true := by decide
example : Vin.jsIncludes "Request timeout with payment provider" "temporarily unavailable" = false := by decide
example : Vin.jsTrim "  \t " = "" := by decide

namespace Vin

/-! ## Helper lemmas -/

theorem normA_sample : normalizeAmountA (.finite (2999/100)) = some (2999/100) := by
  norm_num [normalizeAmountA, jsRound, Rat.floor]

theorem normB_sample : normalizeAmountB (.finite (2999/100)) = some 2999 := by
  norm_num [normalizeAmountB, jsRound, Rat.floor]

theorem errRespA_not_ok (prod : Bool) (e : JsError) : (errRespA prod e).isOk = false := rfl

theorem errRespB_not_ok (prod : Bool) (e : JsError) : (errRespB prod e).isOk = false := by
  unfold errRespB
  split
  · rfl
  · split <;> rfl

theorem confirmErrA_not_ok (prod : Bool) (e : JsError) :
    (confirmErrA prod e).isOk = false := rfl

theorem getTokenA_env_fail (env : Env) (login : CallResult LoginBody)
    (h : assertEnvFails env = true) :
    getTokenA env login = (.error ⟨assertEnvMsg env, none, none⟩, []) := by
  unfold getTokenA
  rw [h]
  rfl

theorem getTokenB_env_fail (env : Env) (login : CallResult LoginBody)
    (h : assertEnvFails env = true) :
    getTokenB env login = (.error ⟨assertEnvMsg env, none, none⟩, []) := by
  unfold getTokenB
  rw [h]
  rfl

theorem getTokenA_ok (env : Env) (t : String)
    (henv : assertEnvFails env = false) (ht : t ≠ "") :
    getTokenA env (.ok (some t)) = (.ok t, [.login]) := by
  unfold getTokenA
  rw [henv]
  simp [ht]

theorem getTokenB_ok (env : Env) (t : String)
    (henv : assertEnvFails env = false) (ht : t ≠ "") :
    getTokenB env (.ok (some t)) = (.ok t, [.login]) := by
  unfold getTokenB
  rw [henv]
  simp [ht]

theorem getTokenA_http (env : Env) (s : Nat) (b : String)
    (henv : assertEnvFails env = false) :
    getTokenA env (.httpError s b) = (.error tokenWrapErrA, [.login]) := by
  unfold getTokenA
  rw [henv]
  rfl

theorem getTokenB_http401 (env : Env) (b : String)
    (henv : assertEnvFails env = false) :
    getTokenB env (.httpError 401 b) =
      (.error ⟨"Invalid Airwallex credentials", none, none⟩, [.login]) := by
  unfold getTokenB
  rw [henv]
  rfl

theorem runA_ok :
    createIntentA false ⟨"id", "key"⟩ "r1" sampleReq (.ok (some "tok")) (.ok sampleBody) =
      (.ok "int_1" "sec_1" "requires_payment_method" 2999 "USD",
       [.login, .createIntent
          ⟨"r1", 2999/100, "USD", "ORD-1", "Vehicle History Report", 1, 2999/100⟩]) := by
  unfold createIntentA sampleReq
  rw [normA_sample]
  dsimp only
  rw [if_neg (not_or.mpr ⟨by norm_num, by decide⟩),
    getTokenA_ok _ _ (by decide) (by decide)]
  rfl

theorem runB_ok :
    createIntentB false ⟨"id", "key"⟩ "r1" sampleReq (.ok (some "tok")) (.ok sampleBody) =
      (.ok "int_1" "sec_1" "requires_payment_method" 2999 "USD",
       [.login, .createIntent
          ⟨"r1", ((2999 : ℤ) : ℚ), "USD", "ORD-1", "Vehicle History Report", 1,
            ((2999 : ℤ) : ℚ)⟩]) := by
  unfold createIntentB sampleReq
  rw [if_neg (by decide), normB_sample]
  dsimp only
  rw [if_neg (by decide), getTokenB_ok _ _ (by decide) (by decide)]
  rfl

theorem getTokenB_snd (env : Env) (login : CallResult LoginBody) :
    (getTokenB env login).2 = [] ∨ (getTokenB env login).2 = [.login] := by
  unfold getTokenB
  split
  · exact .inl rfl
  · cases login with
    | ok tk =>
      cases tk with
      | some t =>
        dsimp only
        split
        · exact .inr rfl
        · exact .inr rfl
      | none => exact .inr rfl
    | httpError s b =>
      dsimp only
      split
      · exact .inr rfl
      · split
        · exact .inr rfl
        · exact .inr rfl
    | timeout => exact .inr rfl
    | netError m => exact .inr rfl

theorem getTokenB_ok_snd (env : Env) (login : CallResult LoginBody)
    (t : String) (cs : List Call)
    (h : getTokenB env login = (.ok t, cs)) : cs = [.login] := by
  unfold getTokenB at h
  split at h
  · simp at h
  · cases login with
    | ok tk =>
      cases tk with
      | some tt =>
        dsimp only at h
        split at h
        · simp at h
        · simp only [Prod.mk.injEq] at h
          exact h.2.symm
      | none => simp at h
    | httpError s b =>
      dsimp only at h
      split at h
      · simp at h
      · split at h <;> simp at h
    | timeout => simp at h
    | netError m => simp at h

/-- Every run of revision B's create-payment-intent makes no call, only
the login call, or the login call followed by the intent call carrying
the payload built from `normalizeAmount`'s value in both amount
fields. -/
theorem createIntentB_calls (prod : Bool) (env : Env) (reqId : String)
    (req : IntentReq) (login : CallResult LoginBody)
    (intent : CallResult IntentBody) :
    (createIntentB prod env reqId req login intent).2 = [] ∨
    (createIntentB prod env reqId req login intent).2 = [.login] ∨
    ∃ z, normalizeAmountB req.amountNum = some z ∧
      (createIntentB prod env reqId req login intent).2 =
        [.login, .createIntent ⟨reqId, (z : ℚ), req.currency, req.orderId,
          "Vehicle History Report", 1, (z : ℚ)⟩] := by
  unfold createIntentB
  split
  · exact .inl rfl
  · cases hz : normalizeAmountB req.amountNum with
    | none => exact .inl rfl
    | some z =>
      dsimp only
      split
      · exact .inl rfl
      · rcases hgt : getTokenB env login with ⟨tk, cs⟩
        cases tk with
        | error e =>
          rcases getTokenB_snd env login with h | h <;> rw [hgt] at h <;>
            dsimp only at h ⊢
          · exact .inl h
          · exact .inr (.inl h)
        | ok t =>
          have hcs : cs = [.login] := getTokenB_ok_snd env login t cs hgt
          subst hcs
          cases intent <;> exact .inr (.inr ⟨z, rfl, rfl⟩)

/-! ## Claims -/

/-- C1 counterexample: on the accepted input `(amount = 29.99,
orderId = "ORD-1")`, revision A's create-payment-intent handler sends
`29.99` (major units) as both the top-level amount and the order line
unit price, which is not `round(amount * 100) = 2999` minor units, so
the conversion claim fails on this revision. -/
theorem C1_counterexample :
    (createIntentA false ⟨"id", "key"⟩ "r1" sampleReq
        (.ok (some "tok")) (.ok sampleBody)).2 =
      [.login, .createIntent
        ⟨"r1", 2999/100, "USD", "ORD-1", "Vehicle History Report", 1, 2999/100⟩] ∧
    (2999/100 : ℚ) ≠ ((jsRound (2999/100 * 100) : ℤ) : ℚ) := by
  constructor
  · rw [runA_ok]
  · norm_num [jsRound, Rat.floor]

/-- C1 (amended): in revision B's create-payment-intent handler, every
intent-creation payload actually sent to the processor carries
`round(amount * 100)` minor units as its top-level amount, and the order
line unit price is that same value — the conversion happens once, in
`normalizeAmount`. (Revision A instead sends `round(amount*100)/100`
major units.) -/
theorem C1_amended_minor_units (prod : Bool) (env : Env) (reqId : String)
    (req : IntentReq) (login : CallResult LoginBody)
    (intent : CallResult IntentBody) (q : ℚ) (p : IntentPayload)
    (hq : req.amountNum = .finite q)
    (hp : Call.createIntent p ∈ (createIntentB prod env reqId req login intent).2) :
    p.amount = ((jsRound (q * 100) : ℤ) : ℚ) ∧
    p.product_unit_price = p.amount := by
  rcases createIntentB_calls prod env reqId req login intent with h | h | ⟨z, hz, h⟩
  · rw [h] at hp; simp at hp
  · rw [h] at hp; simp at hp
  · rw [h] at hp
    simp only [List.mem_cons, List.not_mem_nil, or_false, reduceCtorEq,
      false_or, Call.createIntent.injEq] at hp
    subst hp
    have hzeq : z = jsRound (q * 100) := by
      rw [hq] at hz
      unfold normalizeAmountB at hz
      dsimp only at hz
      split at hz
      · simp at hz
      · exact (Option.some.injEq _ _ ▸ hz).symm
    constructor
    · show (z : ℚ) = ((jsRound (q * 100) : ℤ) : ℚ)
      rw [hzeq]
    · rfl

/-- C1 witness: for the spec's worked request (amount 29.99), revision B
sends the payload with amount 2999 = round(29.99*100) in both fields. -/
theorem C1_witness :
    sampleReq.amountNum = JsNum.finite (2999/100) ∧
    Call.createIntent samplePayloadB ∈
      (createIntentB false ⟨"id", "key"⟩ "r1" sampleReq
        (.ok (some "tok")) (.ok sampleBody)).2 ∧
    (samplePayloadB.amount = ((jsRound (2999/100 * 100) : ℤ) : ℚ) ∧
      samplePayloadB.product_unit_price = samplePayloadB.amount) :=
  ⟨rfl, by rw [runB_ok]; simp [samplePayloadB],
    C1_amended_minor_units false ⟨"id", "key"⟩ "r1" sampleReq
      (.ok (some "tok")) (.ok sampleBody) (2999/100) samplePayloadB rfl
      (by rw [runB_ok]; simp [samplePayloadB])⟩

/-- C2: a request whose `Number(amount)` is non-numeric, non-finite or
`≤ 0` is rejected with the 400 validation response by both
create-payment-intent handlers, and neither the login call nor the
intent call is made (the outbound-call list is empty). -/
theorem C2_invalid_amount_rejected (prod : Bool) (env : Env) (reqId : String)
    (req : IntentReq) (login : CallResult LoginBody)
    (intent : CallResult IntentBody)
    (h : invalidAmount req.amountNum) :
    createIntentA prod env reqId req login intent =
      (.badRequest "Valid amount (> 0) and orderId are required", []) ∧
    ∃ msg, createIntentB prod env reqId req login intent =
      (.badRequest msg, []) := by
  have hA : normalizeAmountA req.amountNum = none := by
    cases hn : req.amountNum with
    | finite q =>
      rw [hn] at h
      have hq : q ≤ 0 := h
      simp [normalizeAmountA, hq]
    | nan => rfl
    | posInf => rfl
    | negInf => rfl
  have hB : normalizeAmountB req.amountNum = none := by
    cases hn : req.amountNum with
    | finite q =>
      rw [hn] at h
      have hq : q ≤ 0 := h
      simp [normalizeAmountB, hq]
    | nan => rfl
    | posInf => rfl
    | negInf => rfl
  refine ⟨?_, ?_⟩
  · unfold createIntentA
    rw [hA]
  · unfold createIntentB
    split
    · exact ⟨_, rfl⟩
    · rw [hB]
      exact ⟨_, rfl⟩

/-- C2 witness: amount `-5` is rejected by both handlers with no
outbound call. -/
theorem C2_witness :
    invalidAmount (JsNum.finite (-5)) ∧
    (createIntentA false ⟨"id", "key"⟩ "r1" ⟨true, .finite (-5), "USD", "ORD-1"⟩
        .timeout .timeout =
      (.badRequest "Valid amount (> 0) and orderId are required", []) ∧
    ∃ msg, createIntentB false ⟨"id", "key"⟩ "r1" ⟨true, .finite (-5), "USD", "ORD-1"⟩
        .timeout .timeout = (.badRequest msg, [])) :=
  ⟨by norm_num [invalidAmount],
    C2_invalid_amount_rejected false ⟨"id", "key"⟩ "r1"
      ⟨true, .finite (-5), "USD", "ORD-1"⟩ .timeout .timeout
      (by norm_num [invalidAmount])⟩

/-- C3 counterexample: the unnamed variant's create-payment handler
(`src/unnamed/part_000`), on a successful intent creation, sends the
processor's full response body — including the provider-internal field
`provider_internal` — back to the caller instead of the projection. -/
theorem C3_counterexample :
    createPayment0 (.finite 10) "USD" (.ok (some "tok")) (.ok sampleBody) =
      (.okRaw sampleBody,
        [.login0, .createIntent0 (.finite 10) "USD" (some "tok")]) ∧
    sampleBody.extra = [("provider_internal", "x")] := ⟨rfl, rfl⟩

/-- C3 (amended): both create-payment-intent handlers in server.js
return, on a successful intent creation, exactly the projection
`{success:true, id, client_secret, status, amount, currency}` of the
processor's response — provider-internal fields are dropped; the older
`/create-payment` handler in the unnamed file passes the full body
through. -/
theorem C3_amended_projection (prod : Bool) (env : Env) (reqId : String)
    (req : IntentReq) (t : String) (a : ℚ) (z : ℤ) (b : IntentBody)
    (hA : normalizeAmountA req.amountNum = some a) (ha : a ≠ 0)
    (hB : normalizeAmountB req.amountNum = some z) (hz : ¬ z ≤ 0)
    (hT : req.amountTruthy = true) (ho : req.orderId ≠ "")
    (henv : assertEnvFails env = false) (ht : t ≠ "") :
    (createIntentA prod env reqId req (.ok (some t)) (.ok b)).1 =
      .ok b.id b.client_secret b.status b.amount b.currency ∧
    (createIntentB prod env reqId req (.ok (some t)) (.ok b)).1 =
      .ok b.id b.client_secret b.status b.amount b.currency := by
  constructor
  · unfold createIntentA
    rw [hA]
    dsimp only
    rw [if_neg (not_or.mpr ⟨ha, ho⟩), getTokenA_ok env t henv ht]
  · unfold createIntentB
    rw [if_neg (by simp [hT, ho]), hB]
    dsimp only
    rw [if_neg hz, getTokenB_ok env t henv ht]

/-- C3 witness: the spec's worked example — amount 29.99 with a
processor response carrying a provider-internal extra field — yields
exactly the projected success shape from both handlers. -/
theorem C3_witness :
    normalizeAmountA sampleReq.amountNum = some (2999/100) ∧
    normalizeAmountB sampleReq.amountNum = some 2999 ∧
    ((createIntentA false ⟨"id", "key"⟩ "r1" sampleReq
        (.ok (some "tok")) (.ok sampleBody)).1 =
      .ok sampleBody.id sampleBody.client_secret sampleBody.status
        sampleBody.amount sampleBody.currency ∧
    (createIntentB false ⟨"id", "key"⟩ "r1" sampleReq
        (.ok (some "tok")) (.ok sampleBody)).1 =
      .ok sampleBody.id sampleBody.client_secret sampleBody.status
        sampleBody.amount sampleBody.currency) :=
  ⟨normA_sample, normB_sample,
    C3_amended_projection false ⟨"id", "key"⟩ "r1" sampleReq "tok"
      (2999/100) 2999 sampleBody normA_sample (by norm_num) normB_sample
      (by decide) rfl (by decide) (by decide) (by decide)⟩

/-- C4 counterexample: when the processor rejects the token fetch with
HTTP 401, revision A's wrapper (`Error("Payment service unavailable")`)
drops `err.response`, so the handler's 401 branch never fires: the
outward error is the generic "Failed to create payment", not the
authentication-failed message the claim asserts. -/
theorem C4_counterexample :
    (createIntentA false ⟨"cid", "sk"⟩ "r1" sampleReq
        (.httpError 401 "Unauthorized") .timeout).1 =
      .failed 500 "Failed to create payment" (some "Payment service unavailable") ∧
    "Failed to create payment" ≠ "Authentication failed with payment provider" := by
  constructor
  · unfold createIntentA sampleReq
    rw [normA_sample]
    dsimp only
    rw [if_neg (not_or.mpr ⟨by norm_num, by decide⟩),
      getTokenA_http _ 401 _ (by decide)]
    rfl
  · decide

/-- C4 (amended): a processor 401 on the token fetch yields, for any
credential values, the constant outward response "Failed to create
payment" (revision A) resp. "Payment configuration error" (revision B),
with constant non-production details — the response does not depend on
the credentials, so the raw credential strings never appear in it; the
message is not the authentication-failed one. -/
theorem C4_amended_no_credentials_in_response (prod : Bool) (c k : String)
    (hc : c ≠ "") (hk : k ≠ "") (reqId : String) (req : IntentReq)
    (a : ℚ) (z : ℤ) (body : String) (intent : CallResult IntentBody)
    (hA : normalizeAmountA req.amountNum = some a) (ha : a ≠ 0)
    (hB : normalizeAmountB req.amountNum = some z) (hz : ¬ z ≤ 0)
    (hT : req.amountTruthy = true) (ho : req.orderId ≠ "") :
    createIntentA prod ⟨c, k⟩ reqId req (.httpError 401 body) intent =
      (.failed 500 "Failed to create payment"
        (if prod then none else some "Payment service unavailable"), [.login]) ∧
    createIntentB prod ⟨c, k⟩ reqId req (.httpError 401 body) intent =
      (.failed 500 "Payment configuration error"
        (if prod then none else some "Invalid Airwallex credentials"), [.login]) := by
  have henv : assertEnvFails ⟨c, k⟩ = false := by
    simp [assertEnvFails, hc, hk]
  constructor
  · unfold createIntentA
    rw [hA]
    dsimp only
    rw [if_neg (not_or.mpr ⟨ha, ho⟩), getTokenA_http _ 401 _ henv]
    rfl
  · unfold createIntentB
    rw [if_neg (by simp [hT, ho]), hB]
    dsimp only
    rw [if_neg hz, getTokenB_http401 _ _ henv]
    dsimp only
    unfold errRespB
    rw [if_pos (by decide)]

/-- C4 witness: concrete credentials, a 401 with body "denied". -/
theorem C4_witness :
    ("cid" : String) ≠ "" ∧ ("sk" : String) ≠ "" ∧
    (createIntentA false ⟨"cid", "sk"⟩ "r1" sampleReq
        (.httpError 401 "denied") .timeout =
      (.failed 500 "Failed to create payment"
        (if false then none else some "Payment service unavailable"), [.login]) ∧
    createIntentB false ⟨"cid", "sk"⟩ "r1" sampleReq
        (.httpError 401 "denied") .timeout =
      (.failed 500 "Payment configuration error"
        (if false then none else some "Invalid Airwallex credentials"), [.login])) :=
  ⟨by decide, by decide,
    C4_amended_no_credentials_in_response false "cid" "sk" (by decide) (by decide)
      "r1" sampleReq (2999/100) 2999 "denied" .timeout normA_sample
      (by norm_num) normB_sample (by decide) rfl (by decide)⟩

/-- C5: when the outbound intent-creation call times out, the outward
response is HTTP 500 with the generic message, not a 503/504-class
response: in revision B the interceptor's message "Request timeout with
payment provider" matches none of the catch's substring checks (the 503
branch requires "temporarily unavailable"), and in revision A the
ECONNABORTED error has no `response`, so `code` falls back to 500. -/
theorem C5_timeout_maps_to_generic_500 :
    createIntentB true ⟨"id", "key"⟩ "r1" sampleReq (.ok (some "tok")) .timeout =
      (.failed 500 "Failed to create payment intent" none,
       [.login, .createIntent samplePayloadB]) ∧
    createIntentA true ⟨"id", "key"⟩ "r1" sampleReq (.ok (some "tok")) .timeout =
      (.failed 500 "Failed to create payment" none,
       [.login, .createIntent
          ⟨"r1", 2999/100, "USD", "ORD-1", "Vehicle History Report", 1,
            2999/100⟩]) := by
  constructor
  · unfold createIntentB sampleReq
    rw [if_neg (by decide), normB_sample]
    dsimp only
    rw [if_neg (by decide), getTokenB_ok _ _ (by decide) (by decide)]
    unfold errRespB
    rw [if_neg (by decide), if_neg (by decide)]
    rfl
  · unfold createIntentA sampleReq
    rw [normA_sample]
    dsimp only
    rw [if_neg (not_or.mpr ⟨by norm_num, by decide⟩),
      getTokenA_ok _ _ (by decide) (by decide)]
    rfl

/-- C6: a 2xx login response whose body lacks a token is rethrown by
`getAirwallexToken`'s own catch as the same error every other failure
produces — "Payment service unavailable" in revision A (also produced
by a 503), "Failed to authenticate with payment provider" in revision B
(also produced by a 400) — so the missing-token case is not a distinct,
caller-distinguishable error. -/
theorem C6_missing_token_indistinct :
    (getTokenA ⟨"id", "key"⟩ (.ok none)).1 = .error tokenWrapErrA ∧
    (getTokenA ⟨"id", "key"⟩ (.ok (some ""))).1 = .error tokenWrapErrA ∧
    (getTokenA ⟨"id", "key"⟩ (.httpError 503 "upstream down")).1 =
      .error tokenWrapErrA ∧
    (getTokenB ⟨"id", "key"⟩ (.ok none)).1 =
      .error ⟨"Failed to authenticate with payment provider", none, none⟩ ∧
    (getTokenB ⟨"id", "key"⟩ (.httpError 400 "bad request")).1 =
      .error ⟨"Failed to authenticate with payment provider", none, none⟩ := by
  refine ⟨?_, ?_, ?_, ?_, ?_⟩ <;> rfl

/-- C7: with a missing credential, every payment-route handler fails
(`assertEnv` throws before the login request) — no outbound call at all
is made and the outward response is never the success shape. -/
theorem C7_missing_credentials_block_payment_routes (prod : Bool) (env : Env)
    (reqId : String) (req : IntentReq) (login : CallResult LoginBody)
    (intent confirmR statusR : CallResult IntentBody)
    (intentId methodId rawId : String)
    (h : assertEnvFails env = true) :
    ((createIntentA prod env reqId req login intent).2 = [] ∧
      (createIntentA prod env reqId req login intent).1.isOk = false) ∧
    ((createIntentB prod env reqId req login intent).2 = [] ∧
      (createIntentB prod env reqId req login intent).1.isOk = false) ∧
    ((confirmA prod env intentId methodId login confirmR).2 = [] ∧
      (confirmA prod env intentId methodId login confirmR).1.isOk = false) ∧
    ((statusA env rawId login statusR).2 = [] ∧
      (statusA env rawId login statusR).1.isOk = false) := by
  refine ⟨?_, ?_, ?_, ?_⟩
  · unfold createIntentA
    cases hno : normalizeAmountA req.amountNum with
    | none => exact ⟨rfl, rfl⟩
    | some a =>
      dsimp only
      split
      · exact ⟨rfl, rfl⟩
      · rw [getTokenA_env_fail env login h]
        exact ⟨rfl, errRespA_not_ok _ _⟩
  · unfold createIntentB
    split
    · exact ⟨rfl, rfl⟩
    · cases hno : normalizeAmountB req.amountNum with
      | none => exact ⟨rfl, rfl⟩
      | some z =>
        dsimp only
        split
        · exact ⟨rfl, rfl⟩
        · rw [getTokenB_env_fail env login h]
          exact ⟨rfl, errRespB_not_ok _ _⟩
  · unfold confirmA
    split
    · exact ⟨rfl, rfl⟩
    · rw [getTokenA_env_fail env login h]
      exact ⟨rfl, confirmErrA_not_ok _ _⟩
  · unfold statusA
    dsimp only
    split
    · exact ⟨rfl, rfl⟩
    · rw [getTokenA_env_fail env login h]
      exact ⟨rfl, rfl⟩

/-- C7 witness: empty `AIRWALLEX_CLIENT_ID`. -/
theorem C7_witness :
    assertEnvFails ⟨"", "sk"⟩ = true ∧
    (((createIntentA false ⟨"", "sk"⟩ "r1" ⟨true, .nan, "USD", "ORD-1"⟩
          .timeout .timeout).2 = [] ∧
      (createIntentA false ⟨"", "sk"⟩ "r1" ⟨true, .nan, "USD", "ORD-1"⟩
          .timeout .timeout).1.isOk = false) ∧
    ((createIntentB false ⟨"", "sk"⟩ "r1" ⟨true, .nan, "USD", "ORD-1"⟩
          .timeout .timeout).2 = [] ∧
      (createIntentB false ⟨"", "sk"⟩ "r1" ⟨true, .nan, "USD", "ORD-1"⟩
          .timeout .timeout).1.isOk = false) ∧
    ((confirmA false ⟨"", "sk"⟩ "pi_1" "pm_1" .timeout .timeout).2 = [] ∧
      (confirmA false ⟨"", "sk"⟩ "pi_1" "pm_1" .timeout .timeout).1.isOk = false) ∧
    ((statusA ⟨"", "sk"⟩ "pid" .timeout .timeout).2 = [] ∧
      (statusA ⟨"", "sk"⟩ "pid" .timeout .timeout).1.isOk = false)) :=
  ⟨rfl,
    C7_missing_credentials_block_payment_routes false ⟨"", "sk"⟩ "r1"
      ⟨true, .nan, "USD", "ORD-1"⟩ .timeout .timeout .timeout .timeout
      "pi_1" "pm_1" "pid" rfl⟩

/-- C8: for a confirm-payment request with both ids non-empty and a
working token, a processor failure on the confirm call with status `s`
maps to "Payment intent not found" when `s = 404`, to "Payment failed -
please check your payment details" when `s = 402`, and to the generic
"Failed to confirm payment" otherwise (HTTP 500 outward; the provider
body appears in `details` only outside production). -/
theorem C8_confirm_error_mapping (prod : Bool) (env : Env)
    (intentId methodId t body : String) (s : Nat)
    (h1 : intentId ≠ "") (h2 : methodId ≠ "")
    (henv : assertEnvFails env = false) (ht : t ≠ "") :
    (confirmA prod env intentId methodId (.ok (some t)) (.httpError s body)).1 =
      .failed 500
        (if s = 404 then "Payment intent not found"
         else if s = 402 then "Payment failed - please check your payment details"
         else "Failed to confirm payment")
        (if prod then none else some body) := by
  unfold confirmA
  rw [if_neg (not_or.mpr ⟨h1, h2⟩), getTokenA_ok env t henv ht]
  rfl

/-- C8 witness: a 404 from the confirm call. -/
theorem C8_witness :
    ("pi_1" : String) ≠ "" ∧ ("pm_1" : String) ≠ "" ∧
    assertEnvFails ⟨"id", "key"⟩ = false ∧ ("tok" : String) ≠ "" ∧
    (confirmA false ⟨"id", "key"⟩ "pi_1" "pm_1" (.ok (some "tok"))
        (.httpError 404 "nf")).1 =
      .failed 500
        (if (404 : Nat) = 404 then "Payment intent not found"
         else if (404 : Nat) = 402 then "Payment failed - please check your payment details"
         else "Failed to confirm payment")
        (if false then none else some "nf") :=
  ⟨by decide, by decide, rfl, by decide,
    C8_confirm_error_mapping false ⟨"id", "key"⟩ "pi_1" "pm_1" "tok" "nf" 404
      (by decide) (by decide) rfl (by decide)⟩

/-- C9: for a payment-status request whose trimmed id is non-empty, any
processor failure — a failed token fetch or any non-2xx/failed status
lookup — collapses to the constant outward response
`{success:false, error:"Failed to get payment status"}` (HTTP 500); the
handler attaches no provider body in any mode. -/
theorem C9_status_failure_collapses (env : Env) (rawId : String)
    (login : CallResult LoginBody) (statusQ : CallResult IntentBody)
    (hid : jsTrim rawId ≠ "")
    (hfail : tokenOk (getTokenA env login).1 = false ∨
      statusQ.succeeded = false) :
    (statusA env rawId login statusQ).1 =
      .failed "Failed to get payment status" := by
  unfold statusA
  dsimp only
  rw [if_neg hid]
  cases hgt : getTokenA env login with
  | mk tk cs =>
    cases tk with
    | error e => rfl
    | ok t =>
      rcases hfail with hf | hf
      · rw [hgt] at hf
        simp [tokenOk] at hf
      · cases statusQ with
        | ok b => simp [CallResult.succeeded] at hf
        | httpError s b => rfl
        | timeout => rfl
        | netError m => rfl

/-- C9 witness: a 404 from the status lookup. -/
theorem C9_witness :
    jsTrim "pi_123" ≠ "" ∧
    CallResult.succeeded (.httpError 404 "Not found" : CallResult IntentBody) = false ∧
    (statusA ⟨"id", "key"⟩ "pi_123" (.ok (some "tok"))
        (.httpError 404 "Not found")).1 =
      .failed "Failed to get payment status" :=
  ⟨by decide, rfl,
    C9_status_failure_collapses ⟨"id", "key"⟩ "pi_123" (.ok (some "tok"))
      (.httpError 404 "Not found") (by decide) (.inr rfl)⟩

theorem jsTrim_of_whitespace (s : String)
    (h : ∀ c ∈ s.data, isJsWhitespace c) : jsTrim s = "" := by
  unfold jsTrim
  rw [List.dropWhile_eq_nil_iff.mpr h]
  rfl

/-- C10: a payment-status request whose id consists only of whitespace
is rejected with HTTP 400 `{success:false, error:"Payment ID required"}`
before any outbound call, because the id is trimmed before the
non-empty check. -/
theorem C10_whitespace_id_rejected (env : Env) (rawId : String)
    (login : CallResult LoginBody) (statusQ : CallResult IntentBody)
    (h : ∀ c ∈ rawId.data, isJsWhitespace c) :
    statusA env rawId login statusQ = (.badRequest "Payment ID required", []) := by
  unfold statusA
  dsimp only
  rw [jsTrim_of_whitespace rawId h]
  simp

/-- C10 witness: an id of three spaces. -/
theorem C10_witness :
    (∀ c ∈ ("   " : String).data, isJsWhitespace c) ∧
    statusA ⟨"id", "key"⟩ "   " .timeout .timeout =
      (.badRequest "Payment ID required", []) :=
  ⟨by decide,
    C10_whitespace_id_rejected ⟨"id", "key"⟩ "   " .timeout .timeout (by decide)⟩

end Vin
